import Mathlib

/-!
Shallow embedding of the model-construction core of this RetinaNet
repository (keras_retinanet/models/retinanet.py and the `create_models`
driver of keras_retinanet/bin/train.py), together with theorems checking
the natural-language specification against it.

A keras symbolic tensor is embedded as a `KTensor`: an input placeholder
or the (port-indexed) output of a layer applied to a list of input
tensors.  A keras layer object is embedded as a `Layer` value carrying
the configuration that the source passes to the layer constructor; a
keras `Model` used as a layer (a submodel) is embedded as a `Submodel`
carrying an instance identifier (two applications share weights exactly
when they apply the same instance, i.e. the same identifier), its name,
its input placeholder and its output tensor.  Scalar configuration
values (sizes, strides, thresholds, probabilities) are embedded as
rationals; they are carried around as inert data by every construction
in this file.
-/

inductive Act : Type where
  | relu
  | sigmoid
deriving Repr, DecidableEq

inductive Padding : Type where
  | same
  | valid
deriving Repr, DecidableEq

/-- Keras weight initializers used by the source.  `none` at a use site
means the keras default initializer (the source does not pass one). -/
inductive Init : Type where
  | zeros
  | normal (mean : ℚ) (stddev : ℚ)
  | priorProbability (probability : ℚ)
deriving Repr, DecidableEq

/-- The ambient `keras.backend.image_data_format()` global, made an
explicit parameter of the two model builders that consult it. -/
inductive DataFormat : Type where
  | channels_first
  | channels_last
deriving Repr, DecidableEq

/-- Configuration of a `keras.layers.Conv2D` layer as passed by the
source (kernel size and strides are always square/isotropic there). -/
structure ConvSpec : Type where
  filters : Nat
  kernel_size : Nat
  strides : Nat
  padding : Padding
  activation : Option Act
  kernel_initializer : Option Init
  bias_initializer : Option Init
  name : String
deriving Repr, DecidableEq

mutual
/-- A keras symbolic tensor: an `Input` placeholder (shape, identifier)
or output port `p` of a layer applied to a list of input tensors. -/
inductive KTensor : Type where
  | input : List (Option Nat) → Nat → KTensor
  | node : Layer → List KTensor → Nat → KTensor

/-- A keras layer instance with the configuration the source passes to
its constructor.  `anchors` is the keras_retinanet Anchors layer
(size, stride, ratios, scales, name); `filterDetections` carries
(nms, class_specific_filter, score_threshold, max_detections,
nms_threshold, name); `submodelApp` is a keras Model applied as a
layer. -/
inductive Layer : Type where
  | conv2D : ConvSpec → Layer
  | activation : Act → String → Layer
  | reshape : List Int → String → Layer
  | permute : List Nat → String → Layer
  | concatenate : Nat → String → Layer
  | add : String → Layer
  | upsampleLike : String → Layer
  | anchors : ℚ → ℚ → List ℚ → List ℚ → String → Layer
  | regressBoxes : String → Layer
  | clipBoxes : String → Layer
  | filterDetections : Bool → Bool → ℚ → Nat → ℚ → String → Layer
  | coordinateChannel2D : Layer
  | submodelApp : Submodel → Layer

/-- A keras Model used as a submodel: instance identifier, name, input
placeholder, output tensor.  Two submodel applications share weights
exactly when they carry the same instance identifier. -/
inductive Submodel : Type where
  | mk : Nat → String → KTensor → KTensor → Submodel
end

def Submodel.ident : Submodel → Nat
  | .mk i _ _ _ => i

def Submodel.sname : Submodel → String
  | .mk _ n _ _ => n

def Submodel.inputT : Submodel → KTensor
  | .mk _ _ i _ => i

def Submodel.output : Submodel → KTensor
  | .mk _ _ _ o => o

/-- The user-given name of a layer (`none` for layers the source leaves
to keras auto-naming). -/
def Layer.lname : Layer → Option String
  | .conv2D c => some c.name
  | .activation _ n => some n
  | .reshape _ n => some n
  | .permute _ n => some n
  | .concatenate _ n => some n
  | .add n => some n
  | .upsampleLike n => some n
  | .anchors _ _ _ _ n => some n
  | .regressBoxes n => some n
  | .clipBoxes n => some n
  | .filterDetections _ _ _ _ _ n => some n
  | .coordinateChannel2D => none
  | .submodelApp m => some m.sname

def tensorName : KTensor → Option String
  | .input _ _ => none
  | .node l _ _ => l.lname

/-- Applying a keras Model `m` to a tensor `x`, as in the source's
`model(f)`. -/
def applySubmodel (m : Submodel) (x : KTensor) : KTensor :=
  KTensor.node (Layer.submodelApp m) [x] 0

/-- `keras.models.clone_model`: a fresh instance (fresh identifier,
hence fresh weights) with the same architecture.  Returns the clone and
the next unused identifier. -/
def clone_model (m : Submodel) (fresh : Nat) : Submodel × Nat :=
  (Submodel.mk fresh m.sname m.inputT m.output, fresh + 1)

/-- The interior convolution stack shared in shape by every head
builder of the source: one 3x3, stride-1, same-padding Conv2D per entry
of `feature_sizes`, named `nameBase ++ i`. -/
def conv_stack (nameBase : String) (activation : Option Act)
    (kinit binit : Option Init) (feature_sizes : List Nat) (x : KTensor) : KTensor :=
  (feature_sizes.enum).foldl
    (fun acc p =>
      KTensor.node
        (Layer.conv2D
          { filters := p.2, kernel_size := 3, strides := 1, padding := Padding.same,
            activation := activation, kernel_initializer := kinit,
            bias_initializer := binit, name := nameBase ++ toString p.1 })
        [acc] 0)
    x

/-- Embeds `default_classification_model` (retinanet.py).  The extra
`data_format` parameter makes the ambient
`keras.backend.image_data_format()` global explicit; the extra `ref_id`
parameter is the fresh instance identifier keras would allocate. -/
def default_classification_model (num_classes num_anchors : Nat)
    (pyramid_feature_size : Nat := 256) (prior_probability : ℚ := 1/100)
    (feature_sizes : List Nat := [256, 256, 256, 256])
    (name : String := "classification_submodel")
    (data_format : DataFormat := DataFormat.channels_last)
    (ref_id : Nat := 0) : Submodel :=
  let inputs : KTensor :=
    match data_format with
    | DataFormat.channels_first => KTensor.input [some pyramid_feature_size, none, none] ref_id
    | DataFormat.channels_last => KTensor.input [none, none, some pyramid_feature_size] ref_id
  let outputs := conv_stack "pyramid_classification_" (some Act.relu)
    (some (Init.normal 0 (1/100))) (some Init.zeros) feature_sizes inputs
  let outputs := KTensor.node
    (Layer.conv2D
      { filters := num_classes * num_anchors, kernel_size := 3, strides := 1,
        padding := Padding.same, activation := none,
        kernel_initializer := some Init.zeros,
        bias_initializer := some (Init.priorProbability prior_probability),
        name := "pyramid_classification" })
    [outputs] 0
  let outputs :=
    match data_format with
    | DataFormat.channels_first =>
        KTensor.node (Layer.permute [2, 3, 1] "pyramid_classification_permute") [outputs] 0
    | DataFormat.channels_last => outputs
  let outputs := KTensor.node
    (Layer.reshape [-1, (num_classes : Int)] "pyramid_classification_reshape") [outputs] 0
  let outputs := KTensor.node
    (Layer.activation Act.sigmoid "pyramid_classification_sigmoid") [outputs] 0
  Submodel.mk ref_id name inputs outputs

/-- Embeds `default_regression_model` (retinanet.py); extra parameters
as in `default_classification_model`. -/
def default_regression_model (num_anchors : Nat)
    (pyramid_feature_size : Nat := 256)
    (feature_sizes : List Nat := [256, 256, 256, 256])
    (name : String := "regression_submodel")
    (data_format : DataFormat := DataFormat.channels_last)
    (ref_id : Nat := 0) : Submodel :=
  let inputs : KTensor :=
    match data_format with
    | DataFormat.channels_first => KTensor.input [some pyramid_feature_size, none, none] ref_id
    | DataFormat.channels_last => KTensor.input [none, none, some pyramid_feature_size] ref_id
  let outputs := conv_stack "pyramid_regression_" (some Act.relu)
    (some (Init.normal 0 (1/100))) (some Init.zeros) feature_sizes inputs
  let outputs := KTensor.node
    (Layer.conv2D
      { filters := num_anchors * 4, kernel_size := 3, strides := 1,
        padding := Padding.same, activation := none,
        kernel_initializer := some (Init.normal 0 (1/100)),
        bias_initializer := some Init.zeros,
        name := "pyramid_regression" })
    [outputs] 0
  let outputs :=
    match data_format with
    | DataFormat.channels_first =>
        KTensor.node (Layer.permute [2, 3, 1] "pyramid_regression_permute") [outputs] 0
    | DataFormat.channels_last => outputs
  let outputs := KTensor.node
    (Layer.reshape [-1, (4 : Int)] "pyramid_regression_reshape") [outputs] 0
  Submodel.mk ref_id name inputs outputs

/-- Embeds `CommonPFModel` (retinanet.py).  The `num_anchors` argument
is unused by the source body, as in the source. -/
def CommonPFModel (num_anchors : Nat) (pyramid_feature_size : Nat := 256)
    (feature_sizes : List Nat := [256, 256])
    (name : String := "common_submodel") (activation : Act := Act.relu)
    (coordconv : Bool := false) (ref_id : Nat := 0) : Submodel :=
  let inputs : KTensor := KTensor.input [none, none, some pyramid_feature_size] ref_id
  let outputs := inputs
  let outputs :=
    if coordconv then KTensor.node Layer.coordinateChannel2D [inputs] 0 else outputs
  let outputs := conv_stack "pyramid_joint_" (some activation)
    (some (Init.normal 0 (1/100))) (some Init.zeros) feature_sizes outputs
  Submodel.mk ref_id name inputs outputs

/-- Embeds `RegrModel` (retinanet.py). -/
def RegrModel (num_anchors : Nat) (pyramid_feature_size : Nat := 256)
    (feature_sizes : List Nat := [256, 256])
    (name : String := "regression_submodel") (coordconv : Bool := false)
    (activation : Act := Act.relu) (ref_id : Nat := 0) : Submodel :=
  let inputs : KTensor := KTensor.input [none, none, some pyramid_feature_size] ref_id
  let outputs := inputs
  let outputs :=
    if coordconv then KTensor.node Layer.coordinateChannel2D [inputs] 0 else outputs
  let outputs := conv_stack "pyramid_regression_" (some activation)
    (some (Init.normal 0 (1/100))) (some Init.zeros) feature_sizes outputs
  let outputs := KTensor.node
    (Layer.conv2D
      { filters := num_anchors * 4, kernel_size := 3, strides := 1,
        padding := Padding.same, activation := none,
        kernel_initializer := some (Init.normal 0 (1/100)),
        bias_initializer := some Init.zeros,
        name := "pyramid_regression" })
    [outputs] 0
  let outputs := KTensor.node
    (Layer.reshape [-1, (4 : Int)] "pyramid_regression_reshape") [outputs] 0
  Submodel.mk ref_id name inputs outputs

/-- Embeds `ClassModel` (retinanet.py). -/
def ClassModel (num_classes num_anchors : Nat)
    (pyramid_feature_size : Nat := 256) (prior_probability : ℚ := 1/100)
    (feature_sizes : List Nat := [256, 256])
    (name : String := "classification_submodel") (activation : Act := Act.relu)
    (final_activation : Bool := true) (coordconv : Bool := false)
    (ref_id : Nat := 0) : Submodel :=
  let inputs : KTensor := KTensor.input [none, none, some pyramid_feature_size] ref_id
  let outputs := inputs
  let outputs :=
    if coordconv then KTensor.node Layer.coordinateChannel2D [inputs] 0 else outputs
  let outputs := conv_stack "pyramid_classification_" (some activation)
    (some (Init.normal 0 (1/100))) (some Init.zeros) feature_sizes outputs
  let outputs := KTensor.node
    (Layer.conv2D
      { filters := num_classes * num_anchors, kernel_size := 3, strides := 1,
        padding := Padding.same, activation := none,
        kernel_initializer := some Init.zeros,
        bias_initializer := some (Init.priorProbability prior_probability),
        name := "pyramid_classification" })
    [outputs] 0
  let outputs := KTensor.node
    (Layer.reshape [-1, (num_classes : Int)] "pyramid_classification_reshape") [outputs] 0
  let outputs :=
    if final_activation then
      KTensor.node (Layer.activation Act.sigmoid "pyramid_classification_sigmoid") [outputs] 0
    else outputs
  Submodel.mk ref_id name inputs outputs

/-- Embeds the `AnchorParameters` configuration class (retinanet.py). -/
structure AnchorParameters : Type where
  sizes : List ℚ
  strides : List ℚ
  ratios : List ℚ
  scales : List ℚ
deriving Repr, DecidableEq

def AnchorParameters.num_anchors (p : AnchorParameters) : Nat :=
  p.ratios.length * p.scales.length

/-- The default anchor parameters (retinanet.py).  The source's scale
values 2^0, 2^(1/3), 2^(2/3) include two irrational numbers; scalars
are embedded as rationals here, so those two entries are represented by
nearby rational constants.  Every construction in this file treats the
entries of these lists as inert data: only the lengths of the lists and
the identity of the structure ever matter. -/
def AnchorParameters.default : AnchorParameters :=
  { sizes := [32, 64, 128, 256, 512],
    strides := [8, 16, 32, 64, 128],
    ratios := [1/2, 1, 2],
    scales := [1, 12599/10000, 15874/10000] }

def getOrErr {α : Type} : Option α → String → Except String α
  | some a, _ => Except.ok a
  | none, msg => Except.error msg

def exceptIsOk {α : Type} : Except String α → Bool
  | Except.ok _ => true
  | Except.error _ => false

/-- Embeds `joint_submodels` (retinanet.py).  The source indexes
`common_feature_sizes[-1]`, which raises IndexError on an empty list;
the embedding returns an error in that case.  Instance identifiers 2-6
stand for the five fresh keras model objects the call creates.  As in
the source, `CommonPFModel` receives `num_classes` for its (unused)
`num_anchors` parameter, and both branch heads are constructed with
`coordconv=False` and default `pyramid_feature_size` replaced by
`common_feature_sizes[-1]`. -/
def joint_submodels (num_classes num_anchors : Nat)
    (pyramid_feature_size : Nat := 256)
    (common_feature_sizes : List Nat := [256, 256])
    (class_feature_sizes : List Nat := [256, 256])
    (regr_feature_sizes : List Nat := [256, 256])
    (coordconv : Bool := false) : Except String (List (String × Submodel)) :=
  let inputs : KTensor := KTensor.input [none, none, some pyramid_feature_size] 7
  let common_model := CommonPFModel num_classes 256 common_feature_sizes
    "common_submodel" Act.relu coordconv 2
  let common_out := applySubmodel common_model inputs
  match common_feature_sizes.getLast? with
  | none => Except.error "IndexError: list index out of range"
  | some last =>
    let regr_model := RegrModel num_anchors last regr_feature_sizes
      "regression_submodel" false Act.relu 3
    let regr_out := applySubmodel regr_model common_out
    let class_model := ClassModel num_classes num_anchors last (1/100)
      class_feature_sizes "classification_submodel" Act.relu true false 4
    let class_out := applySubmodel class_model common_out
    Except.ok
      [("regression", Submodel.mk 5 "regr_model" inputs regr_out),
       ("classification", Submodel.mk 6 "class_model" inputs class_out)]

/-- Embeds `default_submodels` (retinanet.py); identifiers 0 and 1
stand for the two fresh keras model objects. -/
def default_submodels (num_classes num_anchors : Nat)
    (class_feature_sizes : List Nat := [256, 256, 256, 256])
    (regr_feature_sizes : List Nat := [256, 256, 256, 256]) : List (String × Submodel) :=
  [("regression",
    default_regression_model num_anchors 256 regr_feature_sizes
      "regression_submodel" DataFormat.channels_last 0),
   ("classification",
    default_classification_model num_classes num_anchors 256 (1/100)
      class_feature_sizes "classification_submodel" DataFormat.channels_last 1)]

/-- The loop body of the `share=False` branch of
`__build_model_pyramid` (retinanet.py).  As in the source, the flag
`new` is bound once before the loop and never reassigned inside it, so
the `clone_model` arm is selected exactly when `new` is false.  `fresh`
is the next unused instance identifier for clones; the pair returned is
(the `inputs` list, the next unused identifier). -/
def build_model_pyramid_loop (model : Submodel) (new : Bool) (fresh : Nat) :
    List KTensor → List KTensor × Nat
  | [] => ([], fresh)
  | f :: fs =>
    let mofresh := if new then (model, fresh) else clone_model model fresh
    let rest := build_model_pyramid_loop model new mofresh.2 fs
    (applySubmodel mofresh.1 f :: rest.1, rest.2)

/-- Embeds `__build_model_pyramid` (retinanet.py).  The source
initializes `new = True` immediately before the loop. -/
def build_model_pyramid (name : String) (model : Submodel)
    (features : List KTensor) (share : Bool) (fresh : Nat) : KTensor × Nat :=
  if share then
    (KTensor.node (Layer.concatenate 1 name) (features.map (applySubmodel model)) 0, fresh)
  else
    let inpfresh := build_model_pyramid_loop model true fresh features
    (KTensor.node (Layer.concatenate 1 name) inpfresh.1 0, inpfresh.2)

/-- Embeds `_build_pyramid` (retinanet.py), threading the fresh
identifier supply through the submodel list. -/
def build_pyramid (models : List (String × Submodel)) (features : List KTensor)
    (share : Bool) (fresh : Nat) : List KTensor × Nat :=
  match models with
  | [] => ([], fresh)
  | nm :: rest =>
    let tfresh := build_model_pyramid nm.1 nm.2 features share fresh
    let tsfresh := build_pyramid rest features share tfresh.2
    (tfresh.1 :: tsfresh.1, tsfresh.2)

/-- The per-level Anchors-layer applications of `__build_anchors`
(retinanet.py), over an index-tagged feature list as produced by
`enumerate`.  The source indexes `anchor_parameters.sizes[i]` and
`anchor_parameters.strides[i]`, which raises IndexError when `i` is out
of range; the Anchors layer itself is not under src/.
Modelled from the spec: the Anchors layer
(keras_retinanet.layers.Anchors) is a pure function of feature-map
shapes with no construction-time validation; empty `ratios`/`scales`
give `num_anchors = 0` and an empty output, not an error (spec section
4.1, "Failure: none expected"), so constructing the layer node never
fails here. -/
def build_anchors_list (ap : AnchorParameters) :
    List (Nat × KTensor) → Except String (List KTensor)
  | [] => Except.ok []
  | (i, f) :: rest =>
    match ap.sizes.get? i with
    | none => Except.error "IndexError: list index out of range"
    | some size =>
      match ap.strides.get? i with
      | none => Except.error "IndexError: list index out of range"
      | some stride =>
        let a := KTensor.node
          (Layer.anchors size stride ap.ratios ap.scales ("anchors_" ++ toString i)) [f] 0
        match build_anchors_list ap rest with
        | Except.error e => Except.error e
        | Except.ok as => Except.ok (a :: as)

/-- Embeds `__build_anchors` (retinanet.py): one Anchors layer per
feature level, concatenated along axis 1 under the name "anchors". -/
def build_anchors (ap : AnchorParameters) (features : List KTensor) :
    Except String KTensor :=
  match build_anchors_list ap features.enum with
  | Except.error e => Except.error e
  | Except.ok as => Except.ok (KTensor.node (Layer.concatenate 1 "anchors") as 0)

/-- A keras functional `Model`: input tensors, output tensors, name. -/
structure Model : Type where
  inputs : List KTensor
  outputs : List KTensor
  name : String

mutual
/-- All layer nodes reachable from a tensor.  A submodel application is
one node; its internal layers are not part of the enclosing model's
layer list, exactly as for a nested keras Model. -/
def collectNodes : KTensor → List KTensor
  | .input _ _ => []
  | .node l ins p => KTensor.node l ins p :: collectNodesList ins

def collectNodesList : List KTensor → List KTensor
  | [] => []
  | t :: ts => collectNodes t ++ collectNodesList ts
end

def Model.nodes (m : Model) : List KTensor :=
  collectNodesList m.outputs

/-- `model.get_layer(name).output`: the output tensor of the layer of
the model carrying the given name; keras raises ValueError when no
layer has that name. -/
def Model.get_layer_output (m : Model) (name : String) : Except String KTensor :=
  match m.nodes.find? (fun t => tensorName t == some name) with
  | some t => Except.ok t
  | none => Except.error ("ValueError: No such layer: " ++ name)

/-- A same-padding Conv2D with the keras-default initializers and no
activation, as constructed throughout `_create_pyramid_features`. -/
def pyramidConv (filters kernel stride : Nat) (name : String) : Layer :=
  Layer.conv2D
    { filters := filters, kernel_size := kernel, strides := stride,
      padding := Padding.same, activation := none, kernel_initializer := none,
      bias_initializer := none, name := name }

/-- Embeds `_create_pyramid_features` (retinanet.py).  The source
rebinds the Python names P5, P4, P3; the intermediate bindings are
spelled out here: `r` suffix for the 1x1-reduced maps, `m` suffix for
the elementwise-merged maps, `up` suffix for the UpsampleLike
outputs. -/
def create_pyramid_features (C3 C4 C5 : KTensor) (feature_size : Nat := 256) :
    List KTensor :=
  let P5r := KTensor.node (pyramidConv feature_size 1 1 "C5_reduced") [C5] 0
  let P5up := KTensor.node (Layer.upsampleLike "P5_upsampled") [P5r, C4] 0
  let P5 := KTensor.node (pyramidConv feature_size 3 1 "P5") [P5r] 0
  let P4r := KTensor.node (pyramidConv feature_size 1 1 "C4_reduced") [C4] 0
  let P4m := KTensor.node (Layer.add "P4_merged") [P5up, P4r] 0
  let P4up := KTensor.node (Layer.upsampleLike "P4_upsampled") [P4m, C3] 0
  let P4 := KTensor.node (pyramidConv feature_size 3 1 "P4") [P4m] 0
  let P3r := KTensor.node (pyramidConv feature_size 1 1 "C3_reduced") [C3] 0
  let P3m := KTensor.node (Layer.add "P3_merged") [P4up, P3r] 0
  let P3 := KTensor.node (pyramidConv feature_size 3 1 "P3") [P3m] 0
  let P6 := KTensor.node (pyramidConv feature_size 3 2 "P6") [C5] 0
  let P7a := KTensor.node (Layer.activation Act.relu "C6_relu") [P6] 0
  let P7 := KTensor.node (pyramidConv feature_size 3 2 "P7") [P7a] 0
  [P3, P4, P5, P6, P7]

/-- Embeds `RetinaNet` (retinanet.py).  A `submodels` string not
starting with "joint" leaves the raw string to be iterated as
(name, model) pairs by `_build_pyramid`, which fails in Python; that
path is an error here.  The identifier 10 is the base of the fresh
identifier supply for any clones that `_build_pyramid` would create. -/
def RetinaNet (inputs : List KTensor)
    (backbone_layers : KTensor × KTensor × KTensor) (num_classes : Nat)
    (num_anchors : Nat := 9)
    (create_pyramid_features_arg : Option (KTensor → KTensor → KTensor → List KTensor) := none)
    (submodels : Option String := none) (name : String := "retinanet")
    (share_rpn : Bool := true)
    (class_feature_sizes : List Nat := [256, 256, 256, 256])
    (regr_feature_sizes : List Nat := [256, 256, 256, 256])
    (common_feature_sizes : List Nat := [256, 256, 256, 256])
    (coordconv : Bool := false) : Except String Model :=
  let smsE : Except String (List (String × Submodel)) :=
    match submodels with
    | none =>
      Except.ok (default_submodels num_classes num_anchors
        class_feature_sizes regr_feature_sizes)
    | some s =>
      if s.startsWith "joint" then
        joint_submodels num_classes num_anchors 256 common_feature_sizes
          class_feature_sizes regr_feature_sizes coordconv
      else
        Except.error "TypeError: cannot unpack submodels string into (name, model) pairs"
  match smsE with
  | Except.error e => Except.error e
  | Except.ok sms =>
    let cpf := match create_pyramid_features_arg with
      | none => fun a b c => create_pyramid_features a b c
      | some f => f
    let features := cpf backbone_layers.1 backbone_layers.2.1 backbone_layers.2.2
    let pyramids := (build_pyramid sms features share_rpn 10).1
    Except.ok { inputs := inputs, outputs := pyramids, name := name }

/-- Modelled from the spec: the FilterDetections layer
(keras_retinanet.layers.FilterDetections) is not under src/.  Per the
spec (sections 3 and 4.5), on inputs `[boxes, classification] ++ other`
it returns one fixed-shape output tensor per detection field, ordered
`[boxes, scores, labels, other...]` - that is, `inputs.length + 1`
output ports of a single layer node. -/
def filter_detections_apply (nms class_specific_filter : Bool)
    (score_threshold : ℚ) (max_detections : Nat) (nms_threshold : ℚ)
    (name : String) (inputs : List KTensor) : List KTensor :=
  (List.range (inputs.length + 1)).map
    (fun p => KTensor.node
      (Layer.filterDetections nms class_specific_filter score_threshold
        max_detections nms_threshold name) inputs p)

/-- Embeds `retinanet_bbox` (retinanet.py) for the case where a model
is passed (every caller under src/ passes one; the `model=None`
convenience branch, which would first build a `RetinaNet`, is not
used by the sources).  The source's list comprehension over
`['P3', 'P4', 'P5', 'P6', 'P7']` is unrolled.  Failure of any
`get_layer`, of `__build_anchors`, or of the `outputs`/`inputs`
indexing is a construction-time error. -/
def retinanet_bbox (model : Model)
    (anchor_parameters : AnchorParameters := AnchorParameters.default)
    (nms : Bool := true) (class_specific_filter : Bool := true)
    (name : String := "retinanet-bbox") (score_threshold : ℚ := 1/20)
    (max_detections : Nat := 300) (nms_threshold : ℚ := 1/2) :
    Except String Model :=
  match model.get_layer_output "P3", model.get_layer_output "P4",
        model.get_layer_output "P5", model.get_layer_output "P6",
        model.get_layer_output "P7" with
  | Except.ok p3, Except.ok p4, Except.ok p5, Except.ok p6, Except.ok p7 =>
    let features := [p3, p4, p5, p6, p7]
    match build_anchors anchor_parameters features with
    | Except.error e => Except.error e
    | Except.ok anchors =>
      match model.outputs.get? 0, model.outputs.get? 1, model.inputs.get? 0 with
      | some regression, some classification, some input0 =>
        let other := model.outputs.drop 2
        let boxes := KTensor.node (Layer.regressBoxes "boxes") [anchors, regression] 0
        let clipped := KTensor.node (Layer.clipBoxes "clipped_boxes") [input0, boxes] 0
        let detections := filter_detections_apply nms class_specific_filter
          score_threshold max_detections nms_threshold "filtered_detections"
          ([clipped, classification] ++ other)
        Except.ok { inputs := model.inputs, outputs := detections, name := name }
      | _, _, _ => Except.error "IndexError: list index out of range"
  | _, _, _, _, _ => Except.error "ValueError: No such layer"

/-- The arguments that `create_models` (train.py) can forward to its
`backbone_retinanet` callable.  `freeze_modifier` records whether the
freeze modifier is passed (it only toggles layer trainability, never
the graph).  A keyword omitted at a call site takes the callee's
default; the backbone wrappers (keras_retinanet/models, not under
src/) forward these keywords to `RetinaNet`, so the defaults of
`RetinaNet` (retinanet.py) apply to omitted keywords. -/
structure BackboneCall : Type where
  num_classes : Nat
  freeze_modifier : Bool
  submodels : Option String
  share_rpn : Bool
  class_feature_sizes : List Nat
  regr_feature_sizes : List Nat
  common_feature_sizes : List Nat
  coordconv : Bool

/-- Embeds `model_with_weights` (train.py): `load_weights` mutates the
layer weights in place and the model is returned unchanged; the graph
is not affected, so the embedding is the identity on the graph. -/
def model_with_weights (model : Model) (weights : Option String)
    (skip_mismatch : Bool) : Model :=
  model

/-- The training model of `create_models`: the base model itself when
`multi_gpu` is 0 or 1, the `keras.utils.multi_gpu_model` wrapper (an
external keras utility that replicates the wrapped graph) otherwise. -/
inductive TrainingModel : Type where
  | plain : Model → TrainingModel
  | multiGpu : Model → Nat → TrainingModel

/-- Embeds `create_models` (train.py).  In the `multi_gpu > 1` branch
the source calls `backbone_retinanet(num_classes, modifier=modifier)`
with every other keyword omitted, so the callee's defaults apply; in
the other branch it forwards `submodels`, `share_rpn`, the three
feature-size lists and `coordconv`.  The final
`training_model.compile(...)` attaches losses and an optimizer and does
not change any graph; it is not modelled.  `lr`, `alpha` and `gamma`
are only used by that compile step. -/
def create_models (backbone_retinanet : BackboneCall → Model)
    (num_classes : Nat) (weights : Option String) (multi_gpu : Nat := 0)
    (skip_mismatch : Bool := true) (freeze_backbone : Bool := false)
    (lr : ℚ := 1/100000) (score_threshold : ℚ := 1/20)
    (max_detections : Nat := 300) (nms_threshold : ℚ := 1/2)
    (alpha : ℚ := 1/4) (gamma : ℚ := 2) (share_rpn : Bool := true)
    (class_feature_sizes : List Nat := [256, 256, 256, 256])
    (regr_feature_sizes : List Nat := [256, 256, 256, 256])
    (common_feature_sizes : List Nat := []) (coordconv : Bool := false)
    (submodels : Option String := none) :
    Except String (Model × TrainingModel × Model) :=
  let modelTraining : Model × TrainingModel :=
    if multi_gpu > 1 then
      let model := model_with_weights
        (backbone_retinanet
          { num_classes := num_classes, freeze_modifier := freeze_backbone,
            submodels := none, share_rpn := true,
            class_feature_sizes := [256, 256, 256, 256],
            regr_feature_sizes := [256, 256, 256, 256],
            common_feature_sizes := [256, 256, 256, 256],
            coordconv := false })
        weights skip_mismatch
      (model, TrainingModel.multiGpu model multi_gpu)
    else
      let retinanet := backbone_retinanet
        { num_classes := num_classes, freeze_modifier := freeze_backbone,
          submodels := submodels, share_rpn := share_rpn,
          class_feature_sizes := class_feature_sizes,
          regr_feature_sizes := regr_feature_sizes,
          common_feature_sizes := common_feature_sizes,
          coordconv := coordconv }
      let model := model_with_weights retinanet weights skip_mismatch
      (model, TrainingModel.plain model)
  match retinanet_bbox modelTraining.1 AnchorParameters.default true true
      "retinanet-bbox" score_threshold max_detections nms_threshold with
  | Except.error e => Except.error e
  | Except.ok prediction_model =>
    Except.ok (modelTraining.1, modelTraining.2, prediction_model)

mutual
/-- The list of Conv2D filter counts occurring in a tensor's graph,
descending into submodel internals: a graph observation used to
distinguish two concretely built models. -/
def tensorConvFilters : KTensor → List Nat
  | .input _ _ => []
  | .node l ins _ => layerConvFilters l ++ listConvFilters ins

def layerConvFilters : Layer → List Nat
  | .conv2D c => [c.filters]
  | .submodelApp (.mk _ _ _ o) => tensorConvFilters o
  | _ => []

def listConvFilters : List KTensor → List Nat
  | [] => []
  | t :: ts => tensorConvFilters t ++ listConvFilters ts
end

def modelConvFilters (m : Model) : List Nat :=
  listConvFilters m.outputs

mutual
/-- Whether a CoordinateChannel2D layer occurs in a tensor's graph
(descending into submodel internals). -/
def tensorHasCoord : KTensor → Bool
  | .input _ _ => false
  | .node l ins _ => layerHasCoord l || listHasCoord ins

def layerHasCoord : Layer → Bool
  | .coordinateChannel2D => true
  | .submodelApp (.mk _ _ _ o) => tensorHasCoord o
  | _ => false

def listHasCoord : List KTensor → Bool
  | [] => false
  | t :: ts => tensorHasCoord t || listHasCoord ts
end

/-- Flat anchor-axis rows of a level-ordered concatenation: each row of
the concatenation of per-level blocks with the given row counts, tagged
with (its level index, its offset inside that level). -/
def rowTags (rows : List Nat) : List (Nat × Nat) :=
  rows.enum.flatMap (fun p => (List.range p.2).map (fun j => (p.1, j)))

def emptyModel : Model :=
  { inputs := [], outputs := [], name := "error" }

def unwrapModel (e : Except String Model) : Model :=
  match e with
  | Except.ok m => m
  | Except.error _ => emptyModel

/-- Concrete image input and backbone feature maps used to instantiate
the constructions on a closed test case. -/
def testImageInput : KTensor := KTensor.input [none, none, some 3] 100

def testBackboneC3 : KTensor := KTensor.input [none, none, some 512] 101

def testBackboneC4 : KTensor := KTensor.input [none, none, some 1024] 102

def testBackboneC5 : KTensor := KTensor.input [none, none, some 2048] 103

/-- A concrete `backbone_retinanet` argument for `create_models`: it
builds the src `RetinaNet` on the fixed backbone features above,
forwarding the keywords of the call.  The freeze modifier only toggles
trainability, so it does not appear in the graph. -/
def test_backbone_retinanet (c : BackboneCall) : Model :=
  unwrapModel
    (RetinaNet [testImageInput] (testBackboneC3, testBackboneC4, testBackboneC5)
      c.num_classes 9 none c.submodels "retinanet" c.share_rpn
      c.class_feature_sizes c.regr_feature_sizes c.common_feature_sizes
      c.coordconv)

/-- The default base model on the test backbone: two classes, default
submodels and feature sizes. -/
def testBaseModel : Model :=
  unwrapModel
    (RetinaNet [testImageInput] (testBackboneC3, testBackboneC4, testBackboneC5) 2)

/-- A custom `create_pyramid_features` functor whose five pyramid
outputs carry the names Q3..Q7 instead of P3..P7. -/
def renamedPyramid (a b c : KTensor) : List KTensor :=
  [KTensor.node (pyramidConv 256 3 1 "Q3") [a] 0,
   KTensor.node (pyramidConv 256 3 1 "Q4") [b] 0,
   KTensor.node (pyramidConv 256 3 1 "Q5") [c] 0,
   KTensor.node (pyramidConv 256 3 2 "Q6") [c] 0,
   KTensor.node (pyramidConv 256 3 2 "Q7") [c] 0]

/-- The base model built with the renamed pyramid functor. -/
def testRenamedModel : Model :=
  unwrapModel
    (RetinaNet [testImageInput] (testBackboneC3, testBackboneC4, testBackboneC5) 2 9
      (some renamedPyramid))

/-- Anchor parameters whose `sizes`/`strides` have six entries: one
more than the five pyramid levels. -/
def apSixLevels : AnchorParameters :=
  { sizes := [32, 64, 128, 256, 512, 1024],
    strides := [8, 16, 32, 64, 128, 256],
    ratios := [1/2, 1, 2],
    scales := [1, 2, 3] }

/-- Anchor parameters with five sizes/strides but empty ratios and
scales, so that `num_anchors = 0`. -/
def apZeroAnchors : AnchorParameters :=
  { sizes := [32, 64, 128, 256, 512],
    strides := [8, 16, 32, 64, 128],
    ratios := [],
    scales := [] }

/-- Anchor parameters with only three sizes/strides: fewer than the
five pyramid levels. -/
def apThreeLevels : AnchorParameters :=
  { sizes := [32, 64, 128],
    strides := [8, 16, 32],
    ratios := [1/2, 1, 2],
    scales := [1, 2, 3] }

def unwrapTensor (e : Except String KTensor) : KTensor :=
  match e with
  | Except.ok t => t
  | Except.error _ => KTensor.input [] 999

/-- The five pyramid-layer output tensors of the test base model. -/
def tP3 : KTensor := unwrapTensor (testBaseModel.get_layer_output "P3")

def tP4 : KTensor := unwrapTensor (testBaseModel.get_layer_output "P4")

def tP5 : KTensor := unwrapTensor (testBaseModel.get_layer_output "P5")

def tP6 : KTensor := unwrapTensor (testBaseModel.get_layer_output "P6")

def tP7 : KTensor := unwrapTensor (testBaseModel.get_layer_output "P7")

/-- The anchors tensor that `__build_anchors` produces on the test base
model's pyramid under the default anchor parameters. -/
def tAnchorsDefault : KTensor :=
  unwrapTensor (build_anchors AnchorParameters.default [tP3, tP4, tP5, tP6, tP7])

def tRegression : KTensor :=
  (testBaseModel.outputs.get? 0).getD (KTensor.input [] 999)

def tClassification : KTensor :=
  (testBaseModel.outputs.get? 1).getD (KTensor.input [] 999)

def tInput0 : KTensor :=
  (testBaseModel.inputs.get? 0).getD (KTensor.input [] 999)

/-- Five stand-alone feature tensors for exercising the pyramid-level
constructions on a closed case. -/
def testFeatures : List KTensor :=
  [KTensor.input [none, none, some 256] 200,
   KTensor.input [none, none, some 256] 201,
   KTensor.input [none, none, some 256] 202,
   KTensor.input [none, none, some 256] 203,
   KTensor.input [none, none, some 256] 204]

def testSubmodel : Submodel := default_regression_model 9

/-- The base model of a `create_models` result (the first component),
or the empty model if construction failed. -/
def c2BaseOf (r : Except String (Model × TrainingModel × Model)) : Model :=
  match r with
  | Except.ok t => t.1
  | Except.error _ => emptyModel

/-- The anchors tensor that the claims describe: per-level Anchors
layers, one per feature in feature-list order (level i applied to
feature i with sizes[i] and strides[i]), concatenated along axis 1
under the name "anchors". -/
def anchors_concat_spec (ap : AnchorParameters) (features : List KTensor) : KTensor :=
  KTensor.node (Layer.concatenate 1 "anchors")
    (features.enum.map (fun p =>
      KTensor.node
        (Layer.anchors (ap.sizes.getD p.1 0) (ap.strides.getD p.1 0)
          ap.ratios ap.scales ("anchors_" ++ toString p.1)) [p.2] 0))
    0

/-- The inference model that the claim describes for `retinanet_bbox`:
box decoding ("boxes") on (anchors, regression), clipping
("clipped_boxes") against the model input, detection filtering
("filtered_detections") over (clipped boxes, classification, extras),
with the base model's own inputs and with one output port per
detection field, ordered [boxes, scores, labels, other...]. -/
def retinanet_bbox_spec (model : Model) (nms class_specific_filter : Bool)
    (name : String) (score_threshold : ℚ) (max_detections : Nat)
    (nms_threshold : ℚ)
    (anchors regression classification input0 : KTensor) : Model :=
  let boxes := KTensor.node (Layer.regressBoxes "boxes") [anchors, regression] 0
  let clipped := KTensor.node (Layer.clipBoxes "clipped_boxes") [input0, boxes] 0
  { inputs := model.inputs,
    outputs := filter_detections_apply nms class_specific_filter
      score_threshold max_detections nms_threshold "filtered_detections"
      ([clipped, classification] ++ model.outputs.drop 2),
    name := name }

/-- The submodel list that the claim describes for `joint_submodels`:
a common trunk built with the requested `coordconv`, and regression and
classification branch heads built with `coordconv = false`, each branch
applied to the trunk's output. -/
def joint_submodels_spec (num_classes num_anchors : Nat)
    (pyramid_feature_size : Nat) (common_feature_sizes : List Nat)
    (class_feature_sizes regr_feature_sizes : List Nat) (coordconv : Bool)
    (last : Nat) : List (String × Submodel) :=
  let inputs : KTensor := KTensor.input [none, none, some pyramid_feature_size] 7
  let common_out := applySubmodel
    (CommonPFModel num_classes 256 common_feature_sizes "common_submodel"
      Act.relu coordconv 2) inputs
  [("regression",
    Submodel.mk 5 "regr_model" inputs
      (applySubmodel
        (RegrModel num_anchors last regr_feature_sizes "regression_submodel"
          false Act.relu 3) common_out)),
   ("classification",
    Submodel.mk 6 "class_model" inputs
      (applySubmodel
        (ClassModel num_classes num_anchors last (1/100) class_feature_sizes
          "classification_submodel" Act.relu true false 4) common_out))]

theorem build_model_pyramid_loop_new_true (model : Submodel) :
    ∀ (features : List KTensor) (fresh : Nat),
      build_model_pyramid_loop model true fresh features
        = (features.map (applySubmodel model), fresh) := by
  intro features
  induction features with
  | nil => intro fresh; rfl
  | cons f fs ih =>
    intro fresh
    simp [build_model_pyramid_loop, ih]

/-- C1: the head weight-sharing switch of `__build_model_pyramid`.
When `share = True` the single submodel instance is applied at every
pyramid level and the per-level outputs are concatenated along axis 1
(the anchor axis).  When `share = False` the source intends to clone
the head per level, but the loop flag `new` is initialized to True and
never updated, so `keras.models.clone_model` is never invoked: the very
same instance (same identifier, hence identical weights) is applied at
every level, the fresh-identifier supply is untouched, and the result
coincides with the shared case.  This contradicts the claim that
`share=False` yields an independently cloned head per level. -/
theorem build_model_pyramid_share_switch (name : String) (model : Submodel)
    (features : List KTensor) (fresh : Nat) :
    build_model_pyramid name model features false fresh
      = (KTensor.node (Layer.concatenate 1 name)
          (features.map (applySubmodel model)) 0, fresh)
    ∧ build_model_pyramid name model features true fresh
      = (KTensor.node (Layer.concatenate 1 name)
          (features.map (applySubmodel model)) 0, fresh) := by
  constructor
  · simp [build_model_pyramid, build_model_pyramid_loop_new_true]
  · rfl

/-- C6: `_create_pyramid_features` maps the three backbone maps C3, C4,
C5 to exactly the five outputs [P3, P4, P5, P6, P7], each a Conv2D with
`feature_size` filters; P5, P4, P3 follow the top-down pattern (1x1
reduction, UpsampleLike to the next finer backbone map, elementwise
Add, 3x3 stride-1 refine), P6 is a 3x3 stride-2 convolution applied
directly to C5, and P7 is a ReLU activation followed by a 3x3 stride-2
convolution applied to P6. -/
theorem create_pyramid_features_structure (C3 C4 C5 : KTensor) (feature_size : Nat) :
    create_pyramid_features C3 C4 C5 feature_size =
      (let C5_reduced := KTensor.node (pyramidConv feature_size 1 1 "C5_reduced") [C5] 0
       let P5_upsampled := KTensor.node (Layer.upsampleLike "P5_upsampled") [C5_reduced, C4] 0
       let P5 := KTensor.node (pyramidConv feature_size 3 1 "P5") [C5_reduced] 0
       let C4_reduced := KTensor.node (pyramidConv feature_size 1 1 "C4_reduced") [C4] 0
       let P4_merged := KTensor.node (Layer.add "P4_merged") [P5_upsampled, C4_reduced] 0
       let P4_upsampled := KTensor.node (Layer.upsampleLike "P4_upsampled") [P4_merged, C3] 0
       let P4 := KTensor.node (pyramidConv feature_size 3 1 "P4") [P4_merged] 0
       let C3_reduced := KTensor.node (pyramidConv feature_size 1 1 "C3_reduced") [C3] 0
       let P3_merged := KTensor.node (Layer.add "P3_merged") [P4_upsampled, C3_reduced] 0
       let P3 := KTensor.node (pyramidConv feature_size 3 1 "P3") [P3_merged] 0
       let P6 := KTensor.node (pyramidConv feature_size 3 2 "P6") [C5] 0
       let P7 := KTensor.node (pyramidConv feature_size 3 2 "P7")
         [KTensor.node (Layer.activation Act.relu "C6_relu") [P6] 0] 0
       [P3, P4, P5, P6, P7]) := by
  rfl

/-- C7: in every classification head the repository builds (the default
head for both data formats, and `ClassModel` as instantiated with
`final_activation = True`), the final layer is a 3x3 stride-1
same-padding convolution with `num_classes * num_anchors` filters, a
zero-valued kernel initializer and a PriorProbability bias initializer
(whose default probability is 1/100 in the builders' signatures), and
the head output is that convolution reshaped to (-1, num_classes) and
passed through a sigmoid activation (with the channels_first data
format inserting only a Permute between convolution and reshape). -/
theorem classification_head_final_stack (num_classes num_anchors : Nat)
    (pyramid_feature_size : Nat) (prior_probability : ℚ)
    (feature_sizes : List Nat) (name : String) (ref_id : Nat)
    (activation : Act) (coordconv : Bool) :
    (∃ t,
      (default_classification_model num_classes num_anchors
        pyramid_feature_size prior_probability feature_sizes name
        DataFormat.channels_last ref_id).output
        = KTensor.node (Layer.activation Act.sigmoid "pyramid_classification_sigmoid")
            [KTensor.node (Layer.reshape [-1, (num_classes : Int)] "pyramid_classification_reshape")
              [KTensor.node (Layer.conv2D
                { filters := num_classes * num_anchors, kernel_size := 3, strides := 1,
                  padding := Padding.same, activation := none,
                  kernel_initializer := some Init.zeros,
                  bias_initializer := some (Init.priorProbability prior_probability),
                  name := "pyramid_classification" }) [t] 0] 0] 0)
    ∧ (∃ t,
      (default_classification_model num_classes num_anchors
        pyramid_feature_size prior_probability feature_sizes name
        DataFormat.channels_first ref_id).output
        = KTensor.node (Layer.activation Act.sigmoid "pyramid_classification_sigmoid")
            [KTensor.node (Layer.reshape [-1, (num_classes : Int)] "pyramid_classification_reshape")
              [KTensor.node (Layer.permute [2, 3, 1] "pyramid_classification_permute")
                [KTensor.node (Layer.conv2D
                  { filters := num_classes * num_anchors, kernel_size := 3, strides := 1,
                    padding := Padding.same, activation := none,
                    kernel_initializer := some Init.zeros,
                    bias_initializer := some (Init.priorProbability prior_probability),
                    name := "pyramid_classification" }) [t] 0] 0] 0] 0)
    ∧ (∃ t,
      (ClassModel num_classes num_anchors pyramid_feature_size
        prior_probability feature_sizes name activation true coordconv
        ref_id).output
        = KTensor.node (Layer.activation Act.sigmoid "pyramid_classification_sigmoid")
            [KTensor.node (Layer.reshape [-1, (num_classes : Int)] "pyramid_classification_reshape")
              [KTensor.node (Layer.conv2D
                { filters := num_classes * num_anchors, kernel_size := 3, strides := 1,
                  padding := Padding.same, activation := none,
                  kernel_initializer := some Init.zeros,
                  bias_initializer := some (Init.priorProbability prior_probability),
                  name := "pyramid_classification" }) [t] 0] 0] 0) := by
  refine ⟨⟨_, rfl⟩, ⟨_, rfl⟩, ⟨_, rfl⟩⟩

/-- C8: in every regression head the repository builds (the default
head for both data formats, and `RegrModel` for every configuration),
the final layer is a 3x3 stride-1 same-padding convolution with
`num_anchors * 4` filters and no activation, and the head output is
that convolution reshaped to (-1, 4) with no further layer applied
(the channels_first data format inserting only a Permute between
convolution and reshape). -/
theorem regression_head_final_stack (num_anchors : Nat)
    (pyramid_feature_size : Nat) (feature_sizes : List Nat) (name : String)
    (ref_id : Nat) (activation : Act) (coordconv : Bool) :
    (∃ t,
      (default_regression_model num_anchors pyramid_feature_size
        feature_sizes name DataFormat.channels_last ref_id).output
        = KTensor.node (Layer.reshape [-1, (4 : Int)] "pyramid_regression_reshape")
            [KTensor.node (Layer.conv2D
              { filters := num_anchors * 4, kernel_size := 3, strides := 1,
                padding := Padding.same, activation := none,
                kernel_initializer := some (Init.normal 0 (1/100)),
                bias_initializer := some Init.zeros,
                name := "pyramid_regression" }) [t] 0] 0)
    ∧ (∃ t,
      (default_regression_model num_anchors pyramid_feature_size
        feature_sizes name DataFormat.channels_first ref_id).output
        = KTensor.node (Layer.reshape [-1, (4 : Int)] "pyramid_regression_reshape")
            [KTensor.node (Layer.permute [2, 3, 1] "pyramid_regression_permute")
              [KTensor.node (Layer.conv2D
                { filters := num_anchors * 4, kernel_size := 3, strides := 1,
                  padding := Padding.same, activation := none,
                  kernel_initializer := some (Init.normal 0 (1/100)),
                  bias_initializer := some Init.zeros,
                  name := "pyramid_regression" }) [t] 0] 0] 0)
    ∧ (∃ t,
      (RegrModel num_anchors pyramid_feature_size feature_sizes name
        coordconv activation ref_id).output
        = KTensor.node (Layer.reshape [-1, (4 : Int)] "pyramid_regression_reshape")
            [KTensor.node (Layer.conv2D
              { filters := num_anchors * 4, kernel_size := 3, strides := 1,
                padding := Padding.same, activation := none,
                kernel_initializer := some (Init.normal 0 (1/100)),
                bias_initializer := some Init.zeros,
                name := "pyramid_regression" }) [t] 0] 0) := by
  refine ⟨⟨_, rfl⟩, ⟨_, rfl⟩, ⟨_, rfl⟩⟩

theorem listHasCoord_singleton (t : KTensor) : listHasCoord [t] = tensorHasCoord t := by
  simp [listHasCoord]

theorem conv_stack_hasCoord (nameBase : String) (activation : Option Act)
    (kinit binit : Option Init) (feature_sizes : List Nat) (x : KTensor) :
    tensorHasCoord (conv_stack nameBase activation kinit binit feature_sizes x)
      = tensorHasCoord x := by
  unfold conv_stack
  generalize feature_sizes.enum = l
  induction l generalizing x with
  | nil => rfl
  | cons p ps ih =>
    simp only [List.foldl_cons]
    rw [ih]
    simp [tensorHasCoord, layerHasCoord, listHasCoord]

theorem RegrModel_no_coordconv (num_anchors pyramid_feature_size : Nat)
    (feature_sizes : List Nat) (name : String) (activation : Act) (ref_id : Nat) :
    tensorHasCoord (RegrModel num_anchors pyramid_feature_size feature_sizes
      name false activation ref_id).output = false := by
  simp [RegrModel, Submodel.output, tensorHasCoord, layerHasCoord,
    listHasCoord, conv_stack_hasCoord]

theorem ClassModel_no_coordconv (num_classes num_anchors pyramid_feature_size : Nat)
    (prior_probability : ℚ) (feature_sizes : List Nat) (name : String)
    (activation : Act) (final_activation : Bool) (ref_id : Nat) :
    tensorHasCoord (ClassModel num_classes num_anchors pyramid_feature_size
      prior_probability feature_sizes name activation final_activation false
      ref_id).output = false := by
  cases final_activation <;>
    simp [ClassModel, Submodel.output, tensorHasCoord, layerHasCoord,
      listHasCoord, conv_stack_hasCoord]

/-- C10: `joint_submodels` applies the coordinate-channel augmentation
only inside the shared common trunk.  For every value of `coordconv`
the regression and classification branch heads are constructed with
`coordconv = false` (as exhibited by the literal `false` arguments in
the specification-side description the result equals), so no
CoordinateChannel2D layer ever occurs inside either branch head, while
the common trunk receives the requested `coordconv` flag. -/
theorem joint_submodels_coordconv_only_in_trunk (num_classes num_anchors : Nat)
    (pyramid_feature_size : Nat) (common_feature_sizes : List Nat)
    (class_feature_sizes regr_feature_sizes : List Nat) (coordconv : Bool)
    (last : Nat) (hlast : common_feature_sizes.getLast? = some last) :
    joint_submodels num_classes num_anchors pyramid_feature_size
      common_feature_sizes class_feature_sizes regr_feature_sizes coordconv
      = Except.ok (joint_submodels_spec num_classes num_anchors
          pyramid_feature_size common_feature_sizes class_feature_sizes
          regr_feature_sizes coordconv last)
    ∧ tensorHasCoord (RegrModel num_anchors last regr_feature_sizes
        "regression_submodel" false Act.relu 3).output = false
    ∧ tensorHasCoord (ClassModel num_classes num_anchors last (1/100)
        class_feature_sizes "classification_submodel" Act.relu true false
        4).output = false := by
  refine ⟨?_, RegrModel_no_coordconv _ _ _ _ _ _, ClassModel_no_coordconv _ _ _ _ _ _ _ _ _⟩
  simp only [joint_submodels, hlast, joint_submodels_spec]

/-- Witness for C10 at a concrete configuration (coordconv requested,
non-default feature sizes). -/
theorem joint_submodels_coordconv_witness :
    ([64, 32] : List Nat).getLast? = some 32
    ∧ (joint_submodels 2 9 256 [64, 32] [16] [8] true
        = Except.ok (joint_submodels_spec 2 9 256 [64, 32] [16] [8] true 32)
      ∧ tensorHasCoord (RegrModel 9 32 [8] "regression_submodel" false
          Act.relu 3).output = false
      ∧ tensorHasCoord (ClassModel 2 9 32 (1/100) [16]
          "classification_submodel" Act.relu true false 4).output = false) :=
  ⟨rfl, joint_submodels_coordconv_only_in_trunk 2 9 256 [64, 32] [16] [8] true 32 rfl⟩

theorem build_anchors_list_ok (ap : AnchorParameters) :
    ∀ (fs : List KTensor) (n : Nat),
      n + fs.length ≤ ap.sizes.length → n + fs.length ≤ ap.strides.length →
      build_anchors_list ap (List.enumFrom n fs)
        = Except.ok ((List.enumFrom n fs).map (fun p =>
            KTensor.node
              (Layer.anchors (ap.sizes.getD p.1 0) (ap.strides.getD p.1 0)
                ap.ratios ap.scales ("anchors_" ++ toString p.1)) [p.2] 0)) := by
  intro fs
  induction fs with
  | nil => intro n hs ht; rfl
  | cons f fs ih =>
    intro n hs ht
    have h1 : n < ap.sizes.length := by
      simp only [List.length_cons] at hs; omega
    have h2 : n < ap.strides.length := by
      simp only [List.length_cons] at ht; omega
    have hv := List.get?_eq_get h1
    have hw := List.get?_eq_get h2
    simp only [List.enumFrom, build_anchors_list, hv, hw]
    rw [ih (n + 1) (by simp only [List.length_cons] at hs; omega)
      (by simp only [List.length_cons] at ht; omega)]
    simp only [List.map_cons]
    rw [List.getD_eq_getD_get?, List.getD_eq_getD_get?, hv, hw]
    rfl

theorem build_anchors_list_cons (ap : AnchorParameters) (i : Nat) (f : KTensor)
    (rest : List (Nat × KTensor)) :
    build_anchors_list ap ((i, f) :: rest)
      = (match ap.sizes.get? i with
         | none => Except.error "IndexError: list index out of range"
         | some size =>
           match ap.strides.get? i with
           | none => Except.error "IndexError: list index out of range"
           | some stride =>
             match build_anchors_list ap rest with
             | Except.error e => Except.error e
             | Except.ok as =>
               Except.ok (KTensor.node
                 (Layer.anchors size stride ap.ratios ap.scales
                   ("anchors_" ++ toString i)) [f] 0 :: as)) := by
  rfl

theorem build_anchors_list_err (ap : AnchorParameters) :
    ∀ (fs : List KTensor) (n : Nat), fs ≠ [] →
      (ap.sizes.length < n + fs.length ∨ ap.strides.length < n + fs.length) →
      exceptIsOk (build_anchors_list ap (List.enumFrom n fs)) = false := by
  intro fs
  induction fs with
  | nil => intro n h; exact absurd rfl h
  | cons f fs ih =>
    intro n _ hshort
    rw [show List.enumFrom n (f :: fs) = (n, f) :: List.enumFrom (n + 1) fs from rfl]
    rw [build_anchors_list_cons]
    cases hv : ap.sizes.get? n with
    | none => rfl
    | some v =>
      cases hw : ap.strides.get? n with
      | none => rfl
      | some w =>
        have h1 : n < ap.sizes.length := by
          by_contra hc
          rw [List.get?_eq_none.mpr (Nat.le_of_not_lt hc)] at hv
          cases hv
        have h2 : n < ap.strides.length := by
          by_contra hc
          rw [List.get?_eq_none.mpr (Nat.le_of_not_lt hc)] at hw
          cases hw
        cases fs with
        | nil =>
          exfalso
          rcases hshort with hshort | hshort <;>
            simp only [List.length_cons, List.length_nil] at hshort <;> omega
        | cons g gs =>
          have hrec := ih (n + 1) (by simp)
            (by rcases hshort with hshort | hshort
                · left; simp only [List.length_cons] at hshort ⊢; omega
                · right; simp only [List.length_cons] at hshort ⊢; omega)
          cases hr : build_anchors_list ap (List.enumFrom (n + 1) (g :: gs)) with
          | ok as => rw [hr] at hrec; simp [exceptIsOk] at hrec
          | error e => rfl

theorem build_anchors_isOk_iff (ap : AnchorParameters) (features : List KTensor)
    (hne : features ≠ []) :
    exceptIsOk (build_anchors ap features)
      = (decide (features.length ≤ ap.sizes.length)
          && decide (features.length ≤ ap.strides.length)) := by
  by_cases hs : features.length ≤ ap.sizes.length
  · by_cases ht : features.length ≤ ap.strides.length
    · unfold build_anchors
      rw [show features.enum = List.enumFrom 0 features from rfl]
      rw [build_anchors_list_ok ap features 0 (by omega) (by omega)]
      simp [exceptIsOk, hs, ht]
    · have herr := build_anchors_list_err ap features 0 hne (Or.inr (by omega))
      unfold build_anchors
      rw [show features.enum = List.enumFrom 0 features from rfl]
      cases hr : build_anchors_list ap (List.enumFrom 0 features) with
      | ok as => rw [hr] at herr; simp [exceptIsOk] at herr
      | error e => simp [exceptIsOk, ht]
  · have herr := build_anchors_list_err ap features 0 hne (Or.inl (by omega))
    unfold build_anchors
    rw [show features.enum = List.enumFrom 0 features from rfl]
    cases hr : build_anchors_list ap (List.enumFrom 0 features) with
    | ok as => rw [hr] at herr; simp [exceptIsOk] at herr
    | error e => simp [exceptIsOk, hs]

/-- C4: level-order alignment of anchors and head outputs.  On the same
feature list, `__build_anchors` concatenates (along axis 1, the anchor
axis) one Anchors layer per level in feature-list order (level i gets
sizes[i]/strides[i]), and `__build_model_pyramid` concatenates (along
axis 1) the submodel applications in the same feature-list order; and
with the head built for `num_anchors = ap.num_anchors` (as the callers
arrange), the (level, within-level offset) tag of the i-th anchor row
equals that of the i-th head-output row for every i, whatever the
per-level location count. -/
theorem anchors_and_heads_level_order (ap : AnchorParameters)
    (features : List KTensor) (name : String) (model : Submodel)
    (fresh num_anchors : Nat) (locs : KTensor → Nat)
    (hs : features.length ≤ ap.sizes.length)
    (ht : features.length ≤ ap.strides.length)
    (hk : num_anchors = ap.num_anchors) :
    build_anchors ap features = Except.ok (anchors_concat_spec ap features)
    ∧ (build_model_pyramid name model features true fresh).1
        = KTensor.node (Layer.concatenate 1 name)
            (features.map (applySubmodel model)) 0
    ∧ rowTags (features.map (fun f => locs f * ap.num_anchors))
        = rowTags (features.map (fun f => locs f * num_anchors)) := by
  refine ⟨?_, rfl, by rw [hk]⟩
  unfold build_anchors anchors_concat_spec
  rw [show features.enum = List.enumFrom 0 features from rfl]
  rw [build_anchors_list_ok ap features 0 (by omega) (by omega)]

/-- Witness for C4 at the default anchor parameters, five concrete
features, and a nine-anchor regression head. -/
theorem anchors_and_heads_level_order_witness :
    (testFeatures.length ≤ AnchorParameters.default.sizes.length
      ∧ testFeatures.length ≤ AnchorParameters.default.strides.length
      ∧ 9 = AnchorParameters.default.num_anchors)
    ∧ (build_anchors AnchorParameters.default testFeatures
          = Except.ok (anchors_concat_spec AnchorParameters.default testFeatures)
        ∧ (build_model_pyramid "regression" testSubmodel testFeatures true 10).1
            = KTensor.node (Layer.concatenate 1 "regression")
                (testFeatures.map (applySubmodel testSubmodel)) 0
        ∧ rowTags (testFeatures.map (fun f => (fun _ => 4) f * AnchorParameters.default.num_anchors))
            = rowTags (testFeatures.map (fun f => (fun _ => 4) f * 9))) :=
  ⟨⟨by decide, by decide, by decide⟩,
   anchors_and_heads_level_order AnchorParameters.default testFeatures
     "regression" testSubmodel 10 9 (fun _ => 4) (by decide) (by decide) (by decide)⟩

/-- C3 (amended): for a base model exposing the five pyramid layers and
the usual two outputs, `retinanet_bbox` construction succeeds exactly
when `sizes` and `strides` both have at least five entries: too-short
lists fail fast at graph-construction time with the IndexError raised
by `anchor_parameters.sizes[i]`, while lists longer than five levels
and zero-anchor parameters (empty ratios/scales) are accepted without
any error. -/
theorem retinanet_bbox_anchor_failfast (M : Model) (ap : AnchorParameters)
    (nms csf : Bool) (nm : String) (st : ℚ) (md : Nat) (nt : ℚ)
    (p3 p4 p5 p6 p7 reg cls x0 : KTensor)
    (h3 : M.get_layer_output "P3" = Except.ok p3)
    (h4 : M.get_layer_output "P4" = Except.ok p4)
    (h5 : M.get_layer_output "P5" = Except.ok p5)
    (h6 : M.get_layer_output "P6" = Except.ok p6)
    (h7 : M.get_layer_output "P7" = Except.ok p7)
    (h0 : M.outputs.get? 0 = some reg) (h1 : M.outputs.get? 1 = some cls)
    (hx : M.inputs.get? 0 = some x0) :
    exceptIsOk (retinanet_bbox M ap nms csf nm st md nt)
      = (decide (5 ≤ ap.sizes.length) && decide (5 ≤ ap.strides.length)) := by
  have hiff := build_anchors_isOk_iff ap [p3, p4, p5, p6, p7] (by simp)
  simp only [List.length_cons, List.length_nil] at hiff
  simp only [retinanet_bbox, h3, h4, h5, h6, h7]
  cases hb : build_anchors ap [p3, p4, p5, p6, p7] with
  | error e =>
    rw [hb] at hiff
    simp only [exceptIsOk] at hiff ⊢
    exact hiff
  | ok A =>
    rw [hb] at hiff
    simp only [exceptIsOk] at hiff ⊢
    rw [← hiff]
    simp only [h0, h1, hx]

/-- C3 (counterexample to the claim as stated): on the concrete default
base model, construction succeeds both with anchor parameters whose
sizes/strides have six entries (a level-count mismatch with the five
pyramid levels) and with zero-anchor parameters (empty ratios and
scales), although the claim requires an error in both situations. -/
theorem retinanet_bbox_accepts_bad_anchor_config :
    exceptIsOk (retinanet_bbox testBaseModel apSixLevels true true
        "retinanet-bbox" (1/20) 300 (1/2)) = true
    ∧ exceptIsOk (retinanet_bbox testBaseModel apZeroAnchors true true
        "retinanet-bbox" (1/20) 300 (1/2)) = true
    ∧ apSixLevels.sizes.length ≠ 5
    ∧ apZeroAnchors.num_anchors = 0 := by
  refine ⟨rfl, rfl, by decide, rfl⟩

/-- Witness for the amended C3 theorem: on the concrete default base
model with three-level anchor parameters, construction fails (the
right-hand side evaluates to false). -/
theorem retinanet_bbox_anchor_failfast_witness :
    exceptIsOk (retinanet_bbox testBaseModel apThreeLevels true true
        "retinanet-bbox" (1/20) 300 (1/2))
      = (decide (5 ≤ apThreeLevels.sizes.length)
          && decide (5 ≤ apThreeLevels.strides.length)) :=
  retinanet_bbox_anchor_failfast testBaseModel apThreeLevels true true
    "retinanet-bbox" (1/20) 300 (1/2) tP3 tP4 tP5 tP6 tP7 tRegression
    tClassification tInput0 rfl rfl rfl rfl rfl rfl rfl rfl

/-- C5: `retinanet_bbox` builds the inference graph purely on top of
the given base model's own tensors.  Whenever the P3..P7 layer lookups
return the pyramid tensors, the anchors build on exactly those five
tensors succeeds, and the base model has its regression output,
classification output, and first input, then the constructed model has
the base model's inputs and wires box decoding (layer "boxes") on
(anchors, regression output), clipping (layer "clipped_boxes") against
the base model's first input, and detection filtering (layer
"filtered_detections") over (clipped boxes, classification output,
extra outputs), whose output ports are ordered
[boxes, scores, labels, other...]; no part of the base graph is
cloned. -/
theorem retinanet_bbox_wiring (M : Model) (ap : AnchorParameters)
    (nms csf : Bool) (nm : String) (st : ℚ) (md : Nat) (nt : ℚ)
    (p3 p4 p5 p6 p7 A reg cls x0 : KTensor)
    (h3 : M.get_layer_output "P3" = Except.ok p3)
    (h4 : M.get_layer_output "P4" = Except.ok p4)
    (h5 : M.get_layer_output "P5" = Except.ok p5)
    (h6 : M.get_layer_output "P6" = Except.ok p6)
    (h7 : M.get_layer_output "P7" = Except.ok p7)
    (hA : build_anchors ap [p3, p4, p5, p6, p7] = Except.ok A)
    (h0 : M.outputs.get? 0 = some reg) (h1 : M.outputs.get? 1 = some cls)
    (hx : M.inputs.get? 0 = some x0) :
    retinanet_bbox M ap nms csf nm st md nt
      = Except.ok (retinanet_bbox_spec M nms csf nm st md nt A reg cls x0) := by
  simp only [retinanet_bbox, h3, h4, h5, h6, h7, hA, h0, h1, hx,
    retinanet_bbox_spec]

/-- Witness for C5 on the concrete default base model with the default
anchor parameters. -/
theorem retinanet_bbox_wiring_witness :
    retinanet_bbox testBaseModel AnchorParameters.default true true
        "retinanet-bbox" (1/20) 300 (1/2)
      = Except.ok (retinanet_bbox_spec testBaseModel true true
          "retinanet-bbox" (1/20) 300 (1/2) tAnchorsDefault tRegression
          tClassification tInput0) :=
  retinanet_bbox_wiring testBaseModel AnchorParameters.default true true
    "retinanet-bbox" (1/20) 300 (1/2) tP3 tP4 tP5 tP6 tP7 tAnchorsDefault
    tRegression tClassification tInput0 rfl rfl rfl rfl rfl rfl rfl rfl rfl

/-- C9: `retinanet_bbox` requires the base model to expose layers named
exactly P3..P7.  Whenever construction succeeds, every one of the five
pyramid-layer lookups succeeded on the base model; and on the concrete
model built by `RetinaNet` with a custom pyramid functor whose layers
are named Q3..Q7 instead, construction fails. -/
theorem retinanet_bbox_requires_pyramid_names :
    (∀ (M : Model) (ap : AnchorParameters) (nms csf : Bool) (nm : String)
        (st : ℚ) (md : Nat) (nt : ℚ) (P : Model),
      retinanet_bbox M ap nms csf nm st md nt = Except.ok P →
        ∀ p ∈ ["P3", "P4", "P5", "P6", "P7"],
          exceptIsOk (M.get_layer_output p) = true)
    ∧ exceptIsOk (retinanet_bbox testRenamedModel AnchorParameters.default
        true true "retinanet-bbox" (1/20) 300 (1/2)) = false := by
  constructor
  · intro M ap nms csf nm st md nt P h
    cases h3 : M.get_layer_output "P3" with
    | error e => simp only [retinanet_bbox, h3] at h; exact Except.noConfusion h
    | ok p3 =>
    cases h4 : M.get_layer_output "P4" with
    | error e => simp only [retinanet_bbox, h3, h4] at h; exact Except.noConfusion h
    | ok p4 =>
    cases h5 : M.get_layer_output "P5" with
    | error e => simp only [retinanet_bbox, h3, h4, h5] at h; exact Except.noConfusion h
    | ok p5 =>
    cases h6 : M.get_layer_output "P6" with
    | error e => simp only [retinanet_bbox, h3, h4, h5, h6] at h; exact Except.noConfusion h
    | ok p6 =>
    cases h7 : M.get_layer_output "P7" with
    | error e =>
      simp only [retinanet_bbox, h3, h4, h5, h6, h7] at h
      exact Except.noConfusion h
    | ok p7 =>
    intro p hp
    simp only [List.mem_cons, List.mem_singleton] at hp
    rcases hp with rfl | rfl | rfl | rfl | rfl | hfalse
    · rw [h3]; rfl
    · rw [h4]; rfl
    · rw [h5]; rfl
    · rw [h6]; rfl
    · rw [h7]; rfl
    · simp at hfalse
  · rfl

/-- Witness for the universally quantified part of C9: the default base
model's P3 lookup succeeds because its `retinanet_bbox` construction
succeeds. -/
theorem retinanet_bbox_requires_pyramid_names_witness :
    exceptIsOk (testBaseModel.get_layer_output "P3") = true :=
  retinanet_bbox_requires_pyramid_names.1 testBaseModel
    AnchorParameters.default true true "retinanet-bbox" (1/20) 300 (1/2)
    (retinanet_bbox_spec testBaseModel true true "retinanet-bbox" (1/20) 300
      (1/2) tAnchorsDefault tRegression tClassification tInput0)
    rfl "P3" (by simp)

/-- C2: `create_models` does not build the same base graph for
`multi_gpu > 1` and `multi_gpu = 0` on every accepted configuration.
With `multi_gpu = 2` the call
`backbone_retinanet(num_classes, modifier=modifier)` omits `submodels`,
`share_rpn`, the three feature-size lists and `coordconv`, so the base
model is the default-configured graph (first conjunct); with
`class_feature_sizes = [128]` the resulting base model therefore
differs from the base model built with `multi_gpu = 0`, whose
classification head has one 128-filter interior convolution instead of
four 256-filter ones (second conjunct). -/
theorem create_models_multi_gpu_drops_config :
    c2BaseOf (create_models test_backbone_retinanet 2 none 2 true false
        (1/100000) (1/20) 300 (1/2) (1/4) 2 true [128]
        [256, 256, 256, 256] [] false none)
      = test_backbone_retinanet
          { num_classes := 2, freeze_modifier := false, submodels := none,
            share_rpn := true, class_feature_sizes := [256, 256, 256, 256],
            regr_feature_sizes := [256, 256, 256, 256],
            common_feature_sizes := [256, 256, 256, 256], coordconv := false }
    ∧ modelConvFilters (c2BaseOf (create_models test_backbone_retinanet 2 none
          2 true false (1/100000) (1/20) 300 (1/2) (1/4) 2 true [128]
          [256, 256, 256, 256] [] false none))
        ≠ modelConvFilters (c2BaseOf (create_models test_backbone_retinanet 2
            none 0 true false (1/100000) (1/20) 300 (1/2) (1/4) 2 true [128]
            [256, 256, 256, 256] [] false none)) := by
  refine ⟨rfl, by decide⟩
